import Mathlib

/-!
Verification of the booth-dashboard data engine (`src/app.py`): the TTL cache
(`DataCache`), the retrying worksheet fetcher (`fetch_worksheet_with_retry`),
the cache-aside loader (`load_sensor_data`), the background refresh sweep
(`background_cache_refresh`), and the metrics code (`calculate_comfort_score`,
the temporal-utilization computation of the `dashboard` and `location_view`
routes).

Modelling conventions:
* instants and sensor values are rationals (`ℚ`); `time.time()` amounts are
  passed in explicitly as a `now` argument;
* a raw worksheet cell is a `RawVal` (a number, a text, or a blank cell);
  `pd.to_numeric(..., errors := coerce)` and `pd.to_datetime(..., errors :=
  coerce)` are modelled as total functions into `Option ℚ`, with a concrete
  decimal-string parser standing in for the library's parsers;
* a pandas row/record is an association list from column name to `RawVal`, and
  a DataFrame of sensor data is a `List SensorReading`;
* `df.sort_values (by := timestamp)` is modelled as an insertion sort on the
  parsed timestamp with undefined timestamps last (pandas puts NaT last for
  `na_position = last`).  The source's sort (pandas' default quicksort)
  guarantees the ascending order, the NaT-last placement with NaT rows in
  positional order, and nothing about the relative order of rows with equal
  defined timestamps; the model's insertion sort is one concrete refinement
  of that contract, and only the guaranteed properties are asserted of it;
* the remote provider (`spreadsheet.worksheet(...).get_all_records()`) is a
  function from the attempt index to an outcome, so that one definition covers
  every provider behaviour; `time.sleep` is recorded in a `waits` trace;
* `create_dummy_data()` builds 24 rows from a random generator, so it is
  modelled as an arbitrary parameter `dummy` supplied to the loader.
-/

/-- A raw worksheet cell as seen by `get_all_records`: a number, a piece of
text, or an empty/missing cell. -/
inductive RawVal where
  | num (q : ℚ)
  | text (s : String)
  | blank
deriving DecidableEq

/-- Digits folded into a natural number (helper for the decimal parser). -/
def digitsToNat (ds : List Char) : ℕ :=
  ds.foldl (fun n c => 10 * n + (c.toNat - 48)) 0

/-- Parse a nonempty all-digit character list. -/
def parseDigits (cs : List Char) : Option ℕ :=
  if cs ≠ [] ∧ cs.all (·.isDigit) then some (digitsToNat cs) else none

/-- Parse an unsigned decimal numeral, with an optional fractional part. -/
def parseUnsignedDecimal (cs : List Char) : Option ℚ :=
  match cs.splitOn '.' with
  | [ip] => (parseDigits ip).map (fun n => (n : ℚ))
  | [ip, fp] =>
    match parseDigits ip, parseDigits fp with
    | some i, some f => some ((i : ℚ) + (f : ℚ) / (10 ^ fp.length))
    | _, _ => none
  | _ => none

/-- Python's `str.strip()`: drop whitespace from both ends.  (Lean's own
`String.trim` is an equivalent position-based loop that the kernel cannot
evaluate, so the list-structural form is used.) -/
def pyStrip (s : String) : String :=
  String.mk (((s.data.dropWhile Char.isWhitespace).reverse.dropWhile
    Char.isWhitespace).reverse)

/-- Python's `s.replace(" ", "")`: every space-character occurrence of the
one-character pattern is removed, i.e. spaces are filtered out. -/
def removeSpaces (s : String) : String :=
  String.mk (s.data.filter (fun ch => !(ch == ' ')))

/-- Parse a (possibly negative) decimal numeral from a string; `none` for
anything unparseable.  Stands in for the numeric parsing done by
`pd.to_numeric`. -/
def strToNumeric (s : String) : Option ℚ :=
  match (pyStrip s).data with
  | '-' :: rest => (parseUnsignedDecimal rest).map (fun q => -q)
  | cs => parseUnsignedDecimal cs

/-- `pd.to_numeric(col, errors = coerce)` on one cell: numbers pass through,
parseable text is parsed, anything else coerces to no-value (NaN). -/
def toNumericCoerce : RawVal → Option ℚ
  | .num q => some q
  | .text s => strToNumeric s
  | .blank => none

/-- `pd.to_datetime(col, errors = coerce)` on one cell, with instants taken as
rationals: unparseable cells coerce to no-value (NaT). -/
def toDatetimeCoerce : RawVal → Option ℚ
  | .num q => some q
  | .text s => strToNumeric s
  | .blank => none

/-- The `pir_state` column is not numerically coerced: text stays, a number
cell is stringified by a later `astype(str)`, a blank/missing cell is NaN. -/
def toPirVal : RawVal → Option String
  | .num q => some (toString q)
  | .text s => some s
  | .blank => none

/-- One raw record produced by `get_all_records`: column name to cell. -/
abbrev RawRow := List (String × RawVal)

/-- Column access after the `required_cols` loop of `load_sensor_data`: a
column absent from the frame was filled with `None`, i.e. a blank cell. -/
def rawGet (row : RawRow) (col : String) : RawVal :=
  (List.lookup col row).getD RawVal.blank

/-- A normalized sensor reading: the typed row of the cleaned DataFrame. -/
structure SensorReading where
  timestamp : Option ℚ
  temp_c : Option ℚ
  humidity_pct : Option ℚ
  co2_ppm : Option ℚ
  pir_state : Option String
  voc : Option ℚ
  pm25_ugm3 : Option ℚ
  ch2o_ppm : Option ℚ
  occupancy_count : Option ℚ
  light_lux : Option ℚ
  sound_dBA : Option ℚ
deriving DecidableEq

/-- A reading with every field absent (building block for examples). -/
def emptyReading : SensorReading :=
  ⟨none, none, none, none, none, none, none, none, none, none, none⟩

/-- Sort key of a reading: its timestamp, with NaT mapped to `⊤` so that
undefined timestamps come last (`na_position = last`). -/
def tsKey (r : SensorReading) : WithTop ℚ :=
  match r.timestamp with
  | some t => (t : WithTop ℚ)
  | none => ⊤

/-- The comparison used by `df.sort_values (by := timestamp)`. -/
def tsLe (a b : SensorReading) : Prop := tsKey a ≤ tsKey b

instance : DecidableRel tsLe := fun a b =>
  inferInstanceAs (Decidable (tsKey a ≤ tsKey b))

instance : IsTotal SensorReading tsLe := ⟨fun a b => le_total (tsKey a) (tsKey b)⟩

instance : IsTrans SensorReading tsLe := ⟨fun _ _ _ h1 h2 => le_trans h1 h2⟩

/-- The per-row cleaning of `load_sensor_data` STEP 4: ensure every required
column exists, numerically coerce the sensor columns, datetime-coerce the
timestamp, and leave `pir_state` uncoerced. -/
def normalizeRow (row : RawRow) : SensorReading where
  timestamp := toDatetimeCoerce (rawGet row "timestamp")
  temp_c := toNumericCoerce (rawGet row "temp_c")
  humidity_pct := toNumericCoerce (rawGet row "humidity_pct")
  co2_ppm := toNumericCoerce (rawGet row "co2_ppm")
  pir_state := toPirVal (rawGet row "pir_state")
  voc := toNumericCoerce (rawGet row "voc")
  pm25_ugm3 := toNumericCoerce (rawGet row "pm25_ugm3")
  ch2o_ppm := toNumericCoerce (rawGet row "ch2o_ppm")
  occupancy_count := toNumericCoerce (rawGet row "occupancy_count")
  light_lux := toNumericCoerce (rawGet row "light_lux")
  sound_dBA := toNumericCoerce (rawGet row "sound_dBA")

/-- The whole normalization pipeline of `load_sensor_data` STEP 4: clean each
row, then `df.sort_values (by := timestamp)` with NaT rows last.  The source
sort's default quicksort kind promises only the ascending order and the
NaT-last placement (NaT rows in positional order), not the relative order of
rows with equal defined timestamps; the insertion sort here is one concrete
refinement of that contract, and the normalization theorem asserts only the
promised properties. -/
def normalizeRows (rows : List RawRow) : List SensorReading :=
  List.insertionSort tsLe (rows.map normalizeRow)

/-- One entry of `DataCache.cache`: the stored frame and its fetch instant. -/
structure CacheEntry where
  data : List SensorReading
  timestamp : ℚ
deriving DecidableEq

/-- The `DataCache.cache` dictionary, as an association list with the keys of
distinct bindings understood to be distinct (Python dict semantics). -/
abbrev DataCache := List (String × CacheEntry)

/-- `del self.cache[key]`: remove the binding for `key`. -/
def cacheErase (c : DataCache) (key : String) : DataCache :=
  c.filter (fun p => !(p.1 == key))

/-- `DataCache.get`: return the data while the entry's age is strictly below
the TTL, otherwise delete the expired entry and return `None`.  The state of
the cache after the call is returned as the second component. -/
def cacheGet (c : DataCache) (key : String) (now ttl : ℚ) :
    Option (List SensorReading) × DataCache :=
  match List.lookup key c with
  | some e => if now - e.timestamp < ttl then (some e.data, c) else (none, cacheErase c key)
  | none => (none, c)

/-- `DataCache.set`: dictionary assignment of a fresh entry stamped `now`. -/
def cacheSet (c : DataCache) (key : String) (e : CacheEntry) : DataCache :=
  match c with
  | [] => [(key, e)]
  | (k, v) :: rest => if k == key then (key, e) :: rest else (k, v) :: cacheSet rest key e

/-- One provider interaction per attempt of `fetch_worksheet_with_retry`:
rows returned, worksheet not found, or any other (transient) exception. -/
inductive FetchOutcome where
  | rows (data : List RawRow)
  | notFound
  | transient
deriving DecidableEq

/-- Observable result of a fetch: the returned value, the number of provider
calls made, and the `time.sleep` durations in order. -/
structure FetchResult where
  result : Option (List RawRow)
  calls : ℕ
  waits : List ℕ
deriving DecidableEq

/-- The retry loop body of `fetch_worksheet_with_retry`: `attempt` is the
current loop index and `fuel` the number of loop iterations remaining
(`max_retries - attempt`).  Success returns `data if data else None`; a
not-found returns `None` at once; a transient error sleeps `2 ^ attempt`
and retries only while `attempt < max_retries - 1`. -/
def fetchAux (provider : ℕ → FetchOutcome) : ℕ → ℕ → FetchResult
  | _, 0 => ⟨none, 0, []⟩
  | attempt, fuel + 1 =>
    match provider attempt with
    | .rows d => ⟨if d.isEmpty then none else some d, 1, []⟩
    | .notFound => ⟨none, 1, []⟩
    | .transient =>
      if fuel = 0 then ⟨none, 1, []⟩
      else
        let r := fetchAux provider (attempt + 1) fuel
        ⟨r.result, r.calls + 1, 2 ^ attempt :: r.waits⟩

/-- `fetch_worksheet_with_retry(worksheet_name, max_retries)`: returns `None`
with no provider call when there is no spreadsheet connection, otherwise runs
the retry loop from attempt 0. -/
def fetch_worksheet_with_retry (spreadsheetOk : Bool) (provider : ℕ → FetchOutcome)
    (max_retries : ℕ) : FetchResult :=
  if spreadsheetOk then fetchAux provider 0 max_retries else ⟨none, 0, []⟩

/-- Observable result of `load_sensor_data`: the returned frame, the cache
state after the call, the number of provider calls, and the raw rows the
fetch produced (if any). -/
structure LoadResult where
  result : Option (List SensorReading)
  cache : DataCache
  fetchCalls : ℕ
  fetched : Option (List RawRow)
deriving DecidableEq

/-- The cache key of `load_sensor_data`: location and booth with spaces
removed, joined by an underscore. -/
def cache_key (loc booth : String) : String :=
  removeSpaces loc ++ "_" ++ removeSpaces booth

/-- `load_sensor_data(loc_name, booth_name)`: consult the cache; on a miss
return the dummy frame when there is no spreadsheet connection; otherwise
fetch with retry, and on rows returned clean them, cache the cleaned frame
and return it; on a failed fetch return `None` without setting the cache. -/
def load_sensor_data (loc booth : String) (spreadsheetOk : Bool)
    (provider : ℕ → FetchOutcome) (dummy : List SensorReading)
    (c : DataCache) (now ttl : ℚ) : LoadResult :=
  let key := cache_key loc booth
  let g := cacheGet c key now ttl
  match g.1 with
  | some d => ⟨some d, g.2, 0, none⟩
  | none =>
    if spreadsheetOk = false then
      ⟨some dummy, g.2, 0, none⟩
    else
      let f := fetch_worksheet_with_retry true provider 3
      match f.result with
      | none => ⟨none, g.2, f.calls, none⟩
      | some rows =>
        if rows.isEmpty then ⟨none, g.2, f.calls, some rows⟩
        else
          let df := normalizeRows rows
          ⟨some df, cacheSet g.2 key ⟨df, now⟩, f.calls, some rows⟩

/-- `calculate_comfort_score(row)`: collect one sub-score per present metric
(in the fixed order temperature, humidity, CO2, VOC, PM2.5) and average them;
0 when no metric is present. -/
def calculate_comfort_score (r : SensorReading) : ℚ :=
  let scores : List ℚ :=
    (match r.temp_c with
      | some temp =>
        [if 20 ≤ temp ∧ temp ≤ 25 then (100 : ℚ)
         else if (18 ≤ temp ∧ temp < 20) ∨ (25 < temp ∧ temp ≤ 27) then 50
         else 0]
      | none => []) ++
    (match r.humidity_pct with
      | some hum =>
        [if 40 ≤ hum ∧ hum ≤ 50 then (100 : ℚ)
         else if (30 ≤ hum ∧ hum < 40) ∨ (50 < hum ∧ hum ≤ 60) then 50
         else 0]
      | none => []) ++
    (match r.co2_ppm with
      | some co2 =>
        [if co2 ≤ 600 then (100 : ℚ) else if co2 ≤ 1000 then 75
         else if co2 ≤ 2000 then 25 else 0]
      | none => []) ++
    (match r.voc with
      | some voc =>
        [if voc ≤ 300 then (100 : ℚ) else if voc ≤ 500 then 50 else 0]
      | none => []) ++
    (match r.pm25_ugm3 with
      | some pm25 =>
        [if pm25 ≤ 12 then (100 : ℚ) else if pm25 ≤ 35 then 50 else 0]
      | none => [])
  if scores.isEmpty then 0 else scores.sum / scores.length

/-- Temperature sub-score of the spec's piecewise table (§4.6). -/
def tempScoreSpec (t : ℚ) : ℚ :=
  if 20 ≤ t ∧ t ≤ 25 then 100
  else if (18 ≤ t ∧ t < 20) ∨ (25 < t ∧ t ≤ 27) then 50
  else 0

/-- Humidity sub-score of the spec's piecewise table (§4.6). -/
def humScoreSpec (h : ℚ) : ℚ :=
  if 40 ≤ h ∧ h ≤ 50 then 100
  else if (30 ≤ h ∧ h < 40) ∨ (50 < h ∧ h ≤ 60) then 50
  else 0

/-- CO2 sub-score of the spec's piecewise table (§4.6). -/
def co2ScoreSpec (c : ℚ) : ℚ :=
  if c ≤ 600 then 100 else if c ≤ 1000 then 75 else if c ≤ 2000 then 25 else 0

/-- VOC sub-score of the spec's piecewise table (§4.6). -/
def vocScoreSpec (v : ℚ) : ℚ :=
  if v ≤ 300 then 100 else if v ≤ 500 then 50 else 0

/-- PM2.5 sub-score of the spec's piecewise table (§4.6). -/
def pm25ScoreSpec (p : ℚ) : ℚ :=
  if p ≤ 12 then 100 else if p ≤ 35 then 50 else 0

/-- The spec's formulation of `comfortScore` (§4.6): map each present metric
through its table entry, then take the arithmetic mean of the present
sub-scores; 0 when no metric is present. -/
def comfortScoreSpec (r : SensorReading) : ℚ :=
  let subs : List ℚ :=
    [r.temp_c.map tempScoreSpec, r.humidity_pct.map humScoreSpec,
     r.co2_ppm.map co2ScoreSpec, r.voc.map vocScoreSpec,
     r.pm25_ugm3.map pm25ScoreSpec].reduceOption
  if subs.isEmpty then 0 else subs.sum / subs.length

/-- The temporal-utilization computation shared by the `dashboard` route and
`location_view`: restrict to rows whose timestamp lies in the range (a NaT
timestamp compares false), drop rows without a `pir_state`, and among those
take the percentage whose stripped `pir_state` equals the exact string
`"Occupied"`; 0 when no such rows remain. -/
def temporalUtilization (s : List SensorReading) (startT endT : ℚ) : ℚ :=
  let filtered := s.filter (fun r =>
    match r.timestamp with
    | some t => decide (startT ≤ t) && decide (t ≤ endT)
    | none => false)
  let withPir := filtered.filter (fun r => r.pir_state.isSome)
  if withPir.isEmpty then 0
  else
    let occupied := withPir.filter (fun r =>
      match r.pir_state with
      | some p => pyStrip p == "Occupied"
      | none => false)
    (occupied.length : ℚ) / withPir.length * 100

/-- The amended spec formulation of `temporalUtilization`: among the in-range
readings with a present `pir_state`, the percentage whose trimmed state equals
`"Occupied"` exactly (case-sensitively); 0 if there are none. -/
def temporalUtilizationAmendedSpec (s : List SensorReading) (startT endT : ℚ) : ℚ :=
  let relevant := s.filter (fun r =>
    r.pir_state.isSome &&
    (match r.timestamp with
     | some t => decide (startT ≤ t) && decide (t ≤ endT)
     | none => false))
  if relevant.length = 0 then 0
  else
    100 * (relevant.countP (fun r =>
      match r.pir_state with
      | some p => pyStrip p == "Occupied"
      | none => false) : ℚ) / relevant.length

/-- Outcome of one `load_sensor_data` call as seen by the refresh sweep: a
frame was returned, an absent result was returned, or an exception was
raised out of the call. -/
inductive LoadOutcome where
  | ok
  | failed
  | raised
deriving DecidableEq

/-- The keys attempted by one `refresh_all_booths` sweep, given the outcome of
each key's load.  The `try` block wraps the whole roster loop, so a raised
exception ends the sweep (it is caught and logged outside the loop), while an
ok or absent outcome lets the loop continue. -/
def refresh_sweep_attempts (roster : List (String × String))
    (outcome : String × String → LoadOutcome) : List (String × String) :=
  match roster with
  | [] => []
  | k :: rest =>
    match outcome k with
    | .raised => [k]
    | .ok => k :: refresh_sweep_attempts rest outcome
    | .failed => k :: refresh_sweep_attempts rest outcome

/-- A reading with only a timestamp and a `pir_state` (examples). -/
def pirReading (t : ℚ) (p : String) : SensorReading :=
  { emptyReading with
      timestamp := some t
      pir_state := some p }

/-- The spec's 4-reading utilization example: all in range, states
"Occupied", "occupied ", "Vacant", "Vacant". -/
def exPirSeries : List SensorReading :=
  [pirReading 1 "Occupied", pirReading 2 "occupied ",
   pirReading 3 "Vacant", pirReading 4 "Vacant"]

/-- The spec's all-ideal comfort example reading. -/
def exComfortIdeal : SensorReading :=
  { emptyReading with
      temp_c := some 22
      humidity_pct := some 45
      co2_ppm := some 500
      voc := some 200
      pm25_ugm3 := some 10 }

/-- The spec's CO2-only comfort example reading. -/
def exComfortCO2 : SensorReading :=
  { emptyReading with co2_ppm := some 1500 }

/-- A nonempty stand-in for the frame `create_dummy_data()` returns. -/
def exDummy : List SensorReading :=
  [{ emptyReading with
      timestamp := some 0
      temp_c := some 22 }]

/-- A cache entry stamped at instant 0 (examples). -/
def exEntry : CacheEntry := ⟨[emptyReading], 0⟩

/-- A cache holding one entry for key `"A_B"`, stamped at instant 0. -/
def exCache : DataCache := [("A_B", exEntry)]

/-- A two-key roster for the refresh-sweep examples. -/
def exRoster : List (String × String) := [("A", "B1"), ("A", "B2")]

/-- Outcomes in which the first key's load raises an exception. -/
def exOutcomeRaise (k : String × String) : LoadOutcome :=
  if k = ("A", "B1") then LoadOutcome.raised else LoadOutcome.ok

/-- Outcomes in which the first key's load fails (returns absent) and the
second succeeds; nothing raises. -/
def exOutcomeBenign (k : String × String) : LoadOutcome :=
  if k = ("A", "B1") then LoadOutcome.failed else LoadOutcome.ok

/-- The load observed with no spreadsheet connection, an empty cache, and a
concrete dummy frame (counterexample to the claim that the result is always a
normalized-remote series or absent). -/
def exOfflineLoad : LoadResult :=
  load_sensor_data "Adelaide" "Booth A" false (fun _ => FetchOutcome.transient)
    exDummy [] 0 120

/-! ## Helper lemmas -/

theorem lookup_cacheErase (c : DataCache) (key : String) :
    List.lookup key (cacheErase c key) = none := by
  induction c with
  | nil => rfl
  | cons p rest ih =>
    obtain ⟨k, v⟩ := p
    by_cases hk : k = key
    · have h1 : cacheErase ((k, v) :: rest) key = cacheErase rest key := by
        simp [cacheErase, List.filter_cons, hk]
      rw [h1]
      exact ih
    · have h1 : cacheErase ((k, v) :: rest) key = (k, v) :: cacheErase rest key := by
        simp [cacheErase, List.filter_cons, hk]
      have hbk : (key == k) = false := beq_eq_false_iff_ne.mpr (Ne.symm hk)
      rw [h1]
      simpa [List.lookup, hbk] using ih

theorem cacheGet_of_lookup_none (c : DataCache) (key : String) (now ttl : ℚ)
    (h : List.lookup key c = none) : cacheGet c key now ttl = (none, c) := by
  unfold cacheGet
  rw [h]

theorem cacheGet_snd_of_miss (c : DataCache) (key : String) (now ttl : ℚ)
    (h : (cacheGet c key now ttl).1 = none) :
    List.lookup key (cacheGet c key now ttl).2 = none := by
  unfold cacheGet at h ⊢
  cases hl : List.lookup key c with
  | none => simpa using hl
  | some e =>
    rw [hl] at h
    by_cases hf : now - e.timestamp < ttl
    · simp [hf] at h
    · simp only [hf, if_false]
      exact lookup_cacheErase c key

theorem cacheGet_fst_some (c : DataCache) (key : String) (now ttl : ℚ)
    (d : List SensorReading) (h : (cacheGet c key now ttl).1 = some d) :
    ∃ e : CacheEntry, List.lookup key c = some e ∧ e.data = d ∧
      (cacheGet c key now ttl).2 = c := by
  unfold cacheGet at h ⊢
  cases hl : List.lookup key c with
  | none =>
    rw [hl] at h
    simp at h
  | some e =>
    rw [hl] at h
    by_cases hf : now - e.timestamp < ttl
    · simp only [hf, if_true] at h ⊢
      exact ⟨e, rfl, by simpa using h, trivial⟩
    · simp [hf] at h

theorem load_of_hit (loc booth : String) (sOk : Bool) (provider : ℕ → FetchOutcome)
    (dummy : List SensorReading) (c : DataCache) (now ttl : ℚ) (d : List SensorReading)
    (h : (cacheGet c (cache_key loc booth) now ttl).1 = some d) :
    load_sensor_data loc booth sOk provider dummy c now ttl =
      ⟨some d, (cacheGet c (cache_key loc booth) now ttl).2, 0, none⟩ := by
  simp only [load_sensor_data]
  rw [h]

theorem load_of_offline (loc booth : String) (provider : ℕ → FetchOutcome)
    (dummy : List SensorReading) (c : DataCache) (now ttl : ℚ)
    (h : (cacheGet c (cache_key loc booth) now ttl).1 = none) :
    load_sensor_data loc booth false provider dummy c now ttl =
      ⟨some dummy, (cacheGet c (cache_key loc booth) now ttl).2, 0, none⟩ := by
  simp only [load_sensor_data]
  rw [h]
  simp

theorem load_of_fetch_fail (loc booth : String) (provider : ℕ → FetchOutcome)
    (dummy : List SensorReading) (c : DataCache) (now ttl : ℚ)
    (h : (cacheGet c (cache_key loc booth) now ttl).1 = none)
    (hf : (fetch_worksheet_with_retry true provider 3).result = none) :
    load_sensor_data loc booth true provider dummy c now ttl =
      ⟨none, (cacheGet c (cache_key loc booth) now ttl).2,
        (fetch_worksheet_with_retry true provider 3).calls, none⟩ := by
  simp only [load_sensor_data]
  rw [h, hf]
  simp

theorem load_of_fetch_rows (loc booth : String) (provider : ℕ → FetchOutcome)
    (dummy : List SensorReading) (c : DataCache) (now ttl : ℚ) (rows : List RawRow)
    (h : (cacheGet c (cache_key loc booth) now ttl).1 = none)
    (hf : (fetch_worksheet_with_retry true provider 3).result = some rows)
    (hne : rows.isEmpty = false) :
    load_sensor_data loc booth true provider dummy c now ttl =
      ⟨some (normalizeRows rows),
        cacheSet (cacheGet c (cache_key loc booth) now ttl).2 (cache_key loc booth)
          ⟨normalizeRows rows, now⟩,
        (fetch_worksheet_with_retry true provider 3).calls, some rows⟩ := by
  simp only [load_sensor_data]
  rw [h, hf]
  simp [hne]

theorem fetchAux_succ (provider : ℕ → FetchOutcome) (attempt fuel : ℕ) :
    fetchAux provider attempt (fuel + 1) =
      match provider attempt with
      | .rows d => ⟨if d.isEmpty then none else some d, 1, []⟩
      | .notFound => ⟨none, 1, []⟩
      | .transient =>
        if fuel = 0 then ⟨none, 1, []⟩
        else ⟨(fetchAux provider (attempt + 1) fuel).result,
              (fetchAux provider (attempt + 1) fuel).calls + 1,
              2 ^ attempt :: (fetchAux provider (attempt + 1) fuel).waits⟩ := rfl

theorem fetch_of_empty_rows (provider : ℕ → FetchOutcome)
    (h : provider 0 = FetchOutcome.rows []) :
    fetch_worksheet_with_retry true provider 3 = ⟨none, 1, []⟩ := by
  have h3 : fetch_worksheet_with_retry true provider 3 = fetchAux provider 0 3 := rfl
  rw [h3, show (3 : ℕ) = 2 + 1 from rfl, fetchAux_succ, h]
  rfl

/-! ## Claim theorems -/

/-- C6: for a key with a cache entry, `DataCache.get` returns the stored
series while the entry's age `now - fetchedAt` is strictly below the TTL, and
once the age is at least the TTL it returns absent and deletes the entry, so
a later `get` on the erased cache (with no intervening `set`) finds
nothing. -/
theorem dataCache_get_ttl_behavior (c : DataCache) (key : String) (now now2 ttl : ℚ)
    (e : CacheEntry) (h : List.lookup key c = some e) :
    cacheGet c key now ttl =
      (if now - e.timestamp < ttl then (some e.data, c) else (none, cacheErase c key)) ∧
    (cacheGet (cacheErase c key) key now2 ttl).1 = none := by
  constructor
  · unfold cacheGet
    rw [h]
  · unfold cacheGet
    rw [lookup_cacheErase]

/-- Witness for C6 at a concrete expired entry. -/
theorem dataCache_get_ttl_behavior_witness :
    List.lookup "A_B" exCache = some exEntry ∧
    (cacheGet exCache "A_B" 200 120 =
        (if (200 : ℚ) - exEntry.timestamp < 120 then (some exEntry.data, exCache)
         else (none, cacheErase exCache "A_B")) ∧
      (cacheGet (cacheErase exCache "A_B") "A_B" 201 120).1 = none) :=
  ⟨by decide, dataCache_get_ttl_behavior exCache "A_B" 200 201 120 exEntry (by decide)⟩

/-- C7: when the provider reports the worksheet as not found on the first
attempt, `fetch_worksheet_with_retry` makes exactly one provider call, sleeps
never, and returns absent. -/
theorem fetch_notFound_single_call (provider : ℕ → FetchOutcome)
    (h : provider 0 = FetchOutcome.notFound) :
    fetch_worksheet_with_retry true provider 3 = ⟨none, 1, []⟩ := by
  have h3 : fetch_worksheet_with_retry true provider 3 = fetchAux provider 0 3 := rfl
  rw [h3, show (3 : ℕ) = 2 + 1 from rfl, fetchAux_succ, h]

/-- Witness for C7 at the constant not-found provider. -/
theorem fetch_notFound_single_call_witness :
    (fun _ : ℕ => FetchOutcome.notFound) 0 = FetchOutcome.notFound ∧
    fetch_worksheet_with_retry true (fun _ => FetchOutcome.notFound) 3 = ⟨none, 1, []⟩ :=
  ⟨rfl, fetch_notFound_single_call (fun _ => FetchOutcome.notFound) rfl⟩

/-- C3 counterexample: on a provider that raises a transient error on every
attempt, the waits between attempts are 1 and 2 time units only — the claimed
wait list 1, 2, 4 is wrong, because no sleep follows the final attempt
(`attempt < max_retries - 1` fails for the last attempt). -/
theorem fetch_transient_counterexample :
    fetch_worksheet_with_retry true (fun _ => FetchOutcome.transient) 3 = ⟨none, 3, [1, 2]⟩ ∧
    (fetch_worksheet_with_retry true (fun _ => FetchOutcome.transient) 3).waits ≠ [1, 2, 4] := by
  decide

/-- C3 amended: on a provider that raises a transient error on attempts 0, 1
and 2, `fetch_worksheet_with_retry` calls the provider exactly 3 times, with
waits of `2 ^ 0 = 1` and `2 ^ 1 = 2` time units between the attempts (no wait
after the final attempt), and returns absent. -/
theorem fetch_transient_three_calls (provider : ℕ → FetchOutcome)
    (h0 : provider 0 = FetchOutcome.transient) (h1 : provider 1 = FetchOutcome.transient)
    (h2 : provider 2 = FetchOutcome.transient) :
    fetch_worksheet_with_retry true provider 3 = ⟨none, 3, [1, 2]⟩ := by
  have e2 : fetchAux provider 2 1 = ⟨none, 1, []⟩ := by
    rw [show (1 : ℕ) = 0 + 1 from rfl, fetchAux_succ, h2]
    rfl
  have e1 : fetchAux provider 1 2 = ⟨none, 2, [2]⟩ := by
    rw [show (2 : ℕ) = 1 + 1 from rfl, fetchAux_succ, h1]
    simp [e2]
  have e0 : fetchAux provider 0 3 = ⟨none, 3, [1, 2]⟩ := by
    rw [show (3 : ℕ) = 2 + 1 from rfl, fetchAux_succ, h0]
    simp [e1]
  exact e0

/-- Witness for the amended C3 at the constant transient provider. -/
theorem fetch_transient_three_calls_witness :
    (fun _ : ℕ => FetchOutcome.transient) 0 = FetchOutcome.transient ∧
    (fun _ : ℕ => FetchOutcome.transient) 1 = FetchOutcome.transient ∧
    (fun _ : ℕ => FetchOutcome.transient) 2 = FetchOutcome.transient ∧
    fetch_worksheet_with_retry true (fun _ => FetchOutcome.transient) 3 = ⟨none, 3, [1, 2]⟩ :=
  ⟨rfl, rfl, rfl, fetch_transient_three_calls (fun _ => FetchOutcome.transient) rfl rfl rfl⟩

/-- C5 counterexample: with a two-key roster whose first load raises, the
sweep attempts only the first key — the `try` block wraps the whole roster
loop, so the exception aborts the remaining keys of the sweep. -/
theorem refresh_sweep_abort_counterexample :
    refresh_sweep_attempts exRoster exOutcomeRaise = [("A", "B1")] ∧
    refresh_sweep_attempts exRoster exOutcomeRaise ≠ exRoster := by
  decide

/-- C5 amended: as long as no key's load raises an exception, one sweep
attempts a load for every (location, booth) pair of the roster — in
particular, loads that merely fail by returning absent do not abort the
sweep. -/
theorem refresh_sweep_no_raise_attempts_all (roster : List (String × String))
    (outcome : String × String → LoadOutcome)
    (h : LoadOutcome.raised ∉ roster.map outcome) :
    refresh_sweep_attempts roster outcome = roster := by
  induction roster with
  | nil => rfl
  | cons k rest ih =>
    simp only [List.map_cons, List.mem_cons, not_or] at h
    obtain ⟨hk, hrest⟩ := h
    unfold refresh_sweep_attempts
    cases hko : outcome k with
    | ok => simp only [ih hrest]
    | failed => simp only [ih hrest]
    | raised => exact absurd hko.symm hk

/-- Witness for the amended C5: a roster whose first load fails (absent) and
whose second succeeds is swept in full. -/
theorem refresh_sweep_no_raise_witness :
    LoadOutcome.raised ∉ exRoster.map exOutcomeBenign ∧
    refresh_sweep_attempts exRoster exOutcomeBenign = exRoster :=
  ⟨by decide, refresh_sweep_no_raise_attempts_all exRoster exOutcomeBenign (by decide)⟩

/-- C2 counterexample: the spec's 4-reading example ("Occupied", "occupied ",
"Vacant", "Vacant", all in range) yields 25%, not the claimed 50% — the code
strips whitespace but never case-normalizes, so "occupied " does not count as
occupied. -/
theorem temporal_util_counterexample :
    temporalUtilization exPirSeries 0 10 = 25 ∧
    temporalUtilization exPirSeries 0 10 ≠ 50 := by
  have t1 : (pyStrip "Occupied" == "Occupied") = true := by decide
  have t2 : (pyStrip "occupied " == "Occupied") = false := by decide
  have t3 : (pyStrip "Vacant" == "Occupied") = false := by decide
  have h25 : temporalUtilization exPirSeries 0 10 = 25 := by
    norm_num [temporalUtilization, exPirSeries, pirReading, emptyReading,
      List.filter_cons, t1, t2, t3]
  refine ⟨h25, ?_⟩
  rw [h25]
  norm_num

/-- C2 amended: for every series and range, the utilization computed by the
routes equals the percentage, among in-range readings with a present
`pir_state`, of readings whose stripped `pir_state` equals `"Occupied"`
exactly (case-sensitively), with 0 when there are no such readings. -/
theorem temporal_util_matches_spec (s : List SensorReading) (startT endT : ℚ) :
    temporalUtilization s startT endT = temporalUtilizationAmendedSpec s startT endT := by
  simp only [temporalUtilization, temporalUtilizationAmendedSpec, List.filter_filter,
    List.countP_eq_length_filter, List.isEmpty_iff, ← List.length_eq_zero]
  split_ifs with h
  · rfl
  · ring

/-- C9: `calculate_comfort_score` agrees with the spec's piecewise table and
mean-of-present-sub-scores formulation on every reading, and on the spec's
three examples scores 100, 25 and 0. -/
theorem comfort_score_correct :
    (∀ r : SensorReading, calculate_comfort_score r = comfortScoreSpec r) ∧
    calculate_comfort_score exComfortIdeal = 100 ∧
    calculate_comfort_score exComfortCO2 = 25 ∧
    calculate_comfort_score emptyReading = 0 := by
  refine ⟨fun r => ?_,
    by norm_num [calculate_comfort_score, exComfortIdeal, emptyReading],
    by norm_num [calculate_comfort_score, exComfortCO2, emptyReading],
    by norm_num [calculate_comfort_score, emptyReading]⟩
  obtain ⟨ts, tc, hu, co, pir, vo, pm, ch, oc, li, so⟩ := r
  cases tc <;> cases hu <;> cases co <;> cases vo <;> cases pm <;> rfl

theorem load_of_fetch_rows_empty (loc booth : String) (provider : ℕ → FetchOutcome)
    (dummy : List SensorReading) (c : DataCache) (now ttl : ℚ) (rows : List RawRow)
    (h : (cacheGet c (cache_key loc booth) now ttl).1 = none)
    (hf : (fetch_worksheet_with_retry true provider 3).result = some rows)
    (hne : rows.isEmpty = true) :
    load_sensor_data loc booth true provider dummy c now ttl =
      ⟨none, (cacheGet c (cache_key loc booth) now ttl).2,
        (fetch_worksheet_with_retry true provider 3).calls, some rows⟩ := by
  simp only [load_sensor_data]
  rw [h, hf]
  simp [hne]

/-- C1 counterexample: with the spreadsheet connection unavailable and a cold
cache, `load_sensor_data` returns the dummy frame — a value that is neither
absent nor a series normalized from provider rows (no provider fetch happened
at all). -/
theorem load_offline_dummy_counterexample :
    exOfflineLoad.result = some exDummy ∧ exOfflineLoad.fetchCalls = 0 ∧
    ¬(exOfflineLoad.result = none ∨
      ∃ rows : List RawRow, exOfflineLoad.fetched = some rows ∧
        exOfflineLoad.result = some (normalizeRows rows)) := by
  have hres : exOfflineLoad = ⟨some exDummy, [], 0, none⟩ := by decide
  refine ⟨by rw [hres], by rw [hres], ?_⟩
  rintro (hn | ⟨rows, hf, hr⟩)
  · rw [hres] at hn
    exact Option.noConfusion hn
  · rw [hres] at hf
    exact Option.noConfusion hf

/-- C1 amended: every `load_sensor_data` call returns absent, or the series
held by the cache entry for its key, or a series normalized from the rows the
provider fetch of this very call produced, or — exactly when the spreadsheet
connection is unavailable — the synthetic dummy frame. -/
theorem load_result_cases (loc booth : String) (sOk : Bool) (provider : ℕ → FetchOutcome)
    (dummy : List SensorReading) (c : DataCache) (now ttl : ℚ) :
    (load_sensor_data loc booth sOk provider dummy c now ttl).result = none ∨
    (∃ e : CacheEntry, List.lookup (cache_key loc booth) c = some e ∧
      (load_sensor_data loc booth sOk provider dummy c now ttl).result = some e.data) ∨
    (∃ rows : List RawRow,
      (load_sensor_data loc booth sOk provider dummy c now ttl).fetched = some rows ∧
      (load_sensor_data loc booth sOk provider dummy c now ttl).result =
        some (normalizeRows rows)) ∨
    (sOk = false ∧
      (load_sensor_data loc booth sOk provider dummy c now ttl).result = some dummy) := by
  cases hg : (cacheGet c (cache_key loc booth) now ttl).1 with
  | some d =>
    obtain ⟨e, hl, hd, -⟩ := cacheGet_fst_some c (cache_key loc booth) now ttl d hg
    refine Or.inr (Or.inl ⟨e, hl, ?_⟩)
    rw [load_of_hit loc booth sOk provider dummy c now ttl d hg, hd]
  | none =>
    cases sOk with
    | false =>
      refine Or.inr (Or.inr (Or.inr ⟨rfl, ?_⟩))
      rw [load_of_offline loc booth provider dummy c now ttl hg]
    | true =>
      cases hf : (fetch_worksheet_with_retry true provider 3).result with
      | none =>
        refine Or.inl ?_
        rw [load_of_fetch_fail loc booth provider dummy c now ttl hg hf]
      | some rows =>
        cases hne : rows.isEmpty with
        | true =>
          refine Or.inl ?_
          rw [load_of_fetch_rows_empty loc booth provider dummy c now ttl rows hg hf hne]
        | false =>
          refine Or.inr (Or.inr (Or.inl ⟨rows, ?_, ?_⟩))
          · rw [load_of_fetch_rows loc booth provider dummy c now ttl rows hg hf hne]
          · rw [load_of_fetch_rows loc booth provider dummy c now ttl rows hg hf hne]

/-- C8 counterexample: when the key holds an expired entry and the fetch ends
not-found, `load_sensor_data` returns absent but the cache after the call
differs from the cache before it — the initial `DataCache.get` deleted the
expired entry. -/
theorem load_fetchfail_cache_counterexample :
    (load_sensor_data "A" "B" true (fun _ => FetchOutcome.notFound) [] exCache 200 120).result =
      none ∧
    (load_sensor_data "A" "B" true (fun _ => FetchOutcome.notFound) [] exCache 200 120).cache ≠
      exCache := by
  have hl : List.lookup (cache_key "A" "B") exCache = some exEntry := by decide
  have hg : cacheGet exCache (cache_key "A" "B") 200 120 =
      (none, cacheErase exCache (cache_key "A" "B")) := by
    unfold cacheGet
    rw [hl]
    have hexp : ¬((200 : ℚ) - exEntry.timestamp < 120) := by norm_num [exEntry]
    simp [hexp]
  have hmiss : (cacheGet exCache (cache_key "A" "B") 200 120).1 = none := by rw [hg]
  have hfail :
      (fetch_worksheet_with_retry true (fun _ => FetchOutcome.notFound) 3).result = none := by
    decide
  have h1 := load_of_fetch_fail "A" "B" (fun _ => FetchOutcome.notFound) [] exCache 200 120
    hmiss hfail
  constructor
  · rw [h1]
  · rw [h1, hg]
    decide

/-- C8 amended: on a miss (no entry, or an expired entry that the initial
lookup just evicted), a not-found or exhausted-retries fetch makes
`load_sensor_data` return absent and leave the cache exactly as the initial
`DataCache.get` left it: nothing is added or overwritten, and no entry for the
key remains. -/
theorem load_fetch_fail_cache (loc booth : String) (provider : ℕ → FetchOutcome)
    (dummy : List SensorReading) (c : DataCache) (now ttl : ℚ)
    (hmiss : (cacheGet c (cache_key loc booth) now ttl).1 = none)
    (hfail : (fetch_worksheet_with_retry true provider 3).result = none) :
    (load_sensor_data loc booth true provider dummy c now ttl).result = none ∧
    (load_sensor_data loc booth true provider dummy c now ttl).cache =
      (cacheGet c (cache_key loc booth) now ttl).2 ∧
    List.lookup (cache_key loc booth)
      (load_sensor_data loc booth true provider dummy c now ttl).cache = none := by
  rw [load_of_fetch_fail loc booth provider dummy c now ttl hmiss hfail]
  exact ⟨rfl, rfl, cacheGet_snd_of_miss c (cache_key loc booth) now ttl hmiss⟩

/-- Witness for the amended C8 at an empty cache and a not-found provider. -/
theorem load_fetch_fail_cache_witness :
    (cacheGet [] (cache_key "A" "B") 0 120).1 = none ∧
    (fetch_worksheet_with_retry true (fun _ => FetchOutcome.notFound) 3).result = none ∧
    ((load_sensor_data "A" "B" true (fun _ => FetchOutcome.notFound) [] [] 0 120).result =
        none ∧
      (load_sensor_data "A" "B" true (fun _ => FetchOutcome.notFound) [] [] 0 120).cache =
        (cacheGet [] (cache_key "A" "B") 0 120).2 ∧
      List.lookup (cache_key "A" "B")
        (load_sensor_data "A" "B" true (fun _ => FetchOutcome.notFound) [] [] 0 120).cache =
        none) :=
  ⟨by decide, by decide,
    load_fetch_fail_cache "A" "B" (fun _ => FetchOutcome.notFound) [] [] 0 120
      (by decide) (by decide)⟩

/-- C10 counterexample: when the key holds an expired entry and the fetch
succeeds with zero rows, `load_sensor_data` returns absent but the cache after
the call differs from the cache before it — the initial `DataCache.get`
deleted the expired entry (nothing was cached by the load itself). -/
theorem load_emptyrows_cache_counterexample :
    (load_sensor_data "A" "B" true (fun _ => FetchOutcome.rows []) [] exCache 200 120).result =
      none ∧
    (load_sensor_data "A" "B" true (fun _ => FetchOutcome.rows []) [] exCache 200 120).cache ≠
      exCache := by
  have hl : List.lookup (cache_key "A" "B") exCache = some exEntry := by decide
  have hg : cacheGet exCache (cache_key "A" "B") 200 120 =
      (none, cacheErase exCache (cache_key "A" "B")) := by
    unfold cacheGet
    rw [hl]
    have hexp : ¬((200 : ℚ) - exEntry.timestamp < 120) := by norm_num [exEntry]
    simp [hexp]
  have hmiss : (cacheGet exCache (cache_key "A" "B") 200 120).1 = none := by rw [hg]
  have hfail :
      (fetch_worksheet_with_retry true (fun _ => FetchOutcome.rows []) 3).result = none := by
    decide
  have h1 := load_of_fetch_fail "A" "B" (fun _ => FetchOutcome.rows []) [] exCache 200 120
    hmiss hfail
  constructor
  · rw [h1]
  · rw [h1, hg]
    decide

/-- C10 amended: on a miss where the remote fetch succeeds but yields zero
rows, `load_sensor_data` returns absent and leaves the cache exactly as the
initial `DataCache.get` left it — the empty result is never cached, no entry
for the key remains, and a subsequent load for the key misses and fetches
again (exactly one further provider call under the same provider). -/
theorem load_empty_rows_not_cached (loc booth : String) (provider : ℕ → FetchOutcome)
    (dummy : List SensorReading) (c : DataCache) (now now2 ttl : ℚ)
    (hmiss : (cacheGet c (cache_key loc booth) now ttl).1 = none)
    (hempty : provider 0 = FetchOutcome.rows []) :
    (load_sensor_data loc booth true provider dummy c now ttl).result = none ∧
    (load_sensor_data loc booth true provider dummy c now ttl).cache =
      (cacheGet c (cache_key loc booth) now ttl).2 ∧
    List.lookup (cache_key loc booth)
      (load_sensor_data loc booth true provider dummy c now ttl).cache = none ∧
    (load_sensor_data loc booth true provider dummy
      (load_sensor_data loc booth true provider dummy c now ttl).cache now2 ttl).fetchCalls =
      1 := by
  have hfetch := fetch_of_empty_rows provider hempty
  have hfail : (fetch_worksheet_with_retry true provider 3).result = none := by rw [hfetch]
  have h1 := load_of_fetch_fail loc booth provider dummy c now ttl hmiss hfail
  have hlk : List.lookup (cache_key loc booth)
      (load_sensor_data loc booth true provider dummy c now ttl).cache = none := by
    rw [h1]
    exact cacheGet_snd_of_miss c (cache_key loc booth) now ttl hmiss
  have hmiss2 : (cacheGet (load_sensor_data loc booth true provider dummy c now ttl).cache
      (cache_key loc booth) now2 ttl).1 = none := by
    rw [cacheGet_of_lookup_none _ _ _ _ hlk]
  have h2 := load_of_fetch_fail loc booth provider dummy
    (load_sensor_data loc booth true provider dummy c now ttl).cache now2 ttl hmiss2 hfail
  refine ⟨by rw [h1], by rw [h1], hlk, ?_⟩
  rw [h2, hfetch]

/-- Witness for the amended C10 at an empty cache and a zero-row provider. -/
theorem load_empty_rows_not_cached_witness :
    (cacheGet [] (cache_key "A" "B") 0 120).1 = none ∧
    (fun _ : ℕ => FetchOutcome.rows []) 0 = FetchOutcome.rows [] ∧
    ((load_sensor_data "A" "B" true (fun _ => FetchOutcome.rows []) [] [] 0 120).result =
        none ∧
      (load_sensor_data "A" "B" true (fun _ => FetchOutcome.rows []) [] [] 0 120).cache =
        (cacheGet [] (cache_key "A" "B") 0 120).2 ∧
      List.lookup (cache_key "A" "B")
        (load_sensor_data "A" "B" true (fun _ => FetchOutcome.rows []) [] [] 0 120).cache =
        none ∧
      (load_sensor_data "A" "B" true (fun _ => FetchOutcome.rows []) []
        (load_sensor_data "A" "B" true (fun _ => FetchOutcome.rows []) [] [] 0 120).cache
        1 120).fetchCalls = 1) :=
  ⟨by decide, rfl,
    load_empty_rows_not_cached "A" "B" (fun _ => FetchOutcome.rows []) [] [] 0 1 120
      (by decide) rfl⟩

theorem filter_orderedInsert_key (k : WithTop ℚ) (p : SensorReading → Bool)
    (hp : ∀ x, p x = true → tsKey x = k) (x : SensorReading) :
    ∀ t : List SensorReading,
      (List.orderedInsert tsLe x t).filter p =
        if p x then x :: t.filter p else t.filter p := by
  intro t
  induction t with
  | nil =>
    cases hpx : p x <;> simp [List.orderedInsert, List.filter_cons, hpx]
  | cons y ys ih =>
    by_cases hxy : tsLe x y
    · cases hpx : p x <;>
        simp [List.orderedInsert, hxy, List.filter_cons, hpx]
    · cases hpx : p x with
      | true =>
        have hkx : tsKey x = k := hp x hpx
        have hpy : p y = false := by
          cases hpy : p y with
          | true =>
            exfalso
            apply hxy
            show tsKey x ≤ tsKey y
            rw [hkx, hp y hpy]
          | false => rfl
        simp [List.orderedInsert, hxy, List.filter_cons, hpy, hpx, ih]
      | false =>
        simp [List.orderedInsert, hxy, List.filter_cons, hpx, ih]

theorem filter_insertionSort_key (k : WithTop ℚ) (p : SensorReading → Bool)
    (hp : ∀ x, p x = true → tsKey x = k) :
    ∀ l : List SensorReading, (List.insertionSort tsLe l).filter p = l.filter p := by
  intro l
  induction l with
  | nil => rfl
  | cons a l ih =>
    rw [List.insertionSort, filter_orderedInsert_key k p hp a (List.insertionSort tsLe l)]
    cases hpa : p a with
    | true => simp [List.filter_cons, hpa, ih]
    | false => simp [List.filter_cons, hpa, ih]

/-- C4: the properties of normalization the source's sort does guarantee:
normalization is total by construction (a Lean function on all raw rows, with
missing and unparseable cells coerced to no-value), and its output is a
permutation of the cleaned input rows, sorted ascending by parsed timestamp
with undefined timestamps last (sort key `⊤`), the undefined-timestamp rows
keeping their arrival order.  The claim's further requirement — that readings
with equal defined timestamps also keep their arrival order — asks for a
stable sort, which `df.sort_values` with its default quicksort kind does not
promise; the model's insertion sort refines the source's contract there, so
that conjunct is deliberately not asserted. -/
theorem normalize_sorted_guarantees (rows : List RawRow) :
    (normalizeRows rows).Perm (rows.map normalizeRow) ∧
    List.Sorted tsLe (normalizeRows rows) ∧
    (normalizeRows rows).filter (fun r => r.timestamp.isNone) =
      (rows.map normalizeRow).filter (fun r => r.timestamp.isNone) := by
  unfold normalizeRows
  refine ⟨List.perm_insertionSort tsLe (rows.map normalizeRow),
    List.sorted_insertionSort tsLe (rows.map normalizeRow), ?_⟩
  refine filter_insertionSort_key ⊤ (fun r => r.timestamp.isNone) ?_ (rows.map normalizeRow)
  intro x hx
  have hts : x.timestamp = none := Option.isNone_iff_eq_none.mp hx
  unfold tsKey
  rw [hts]
